import Mathlib

/-!
# Verification of the pscan window-management core

Shallow embedding of the sorting engine (`src/sorting.rs`, plus the older
copy in `src/main.rs`), the layout calculator (`src/utils.rs`), the batch
operation handlers (`src/features/window_operations.rs`,
`src/features/always_on_top.rs`, `src/main.rs`), the Unix platform backend
(`src/platform/unix.rs`) and the window-discovery filter stage
(`src/platform/windows.rs`).

Rust machine integers are modelled as `Nat` (u32/usize) and `Int` (i32);
strings as `List Char`; fallible code returns `Option`/`Except`.
`slice::sort_by` (a stable sort) is modelled as a stable insertion sort.
-/

set_option maxHeartbeats 1000000

namespace Pscan

/-! ## Basic comparison helpers

`Ordering` mirrors `std::cmp::Ordering`; `Ordering.swap` mirrors
`Ordering::reverse`.  `intCmp`/`natCmp` mirror `Ord::cmp` on `i32`/`u32`;
`lexCmp` mirrors the lexicographic `str::cmp` on titles. -/

def intCmp (a b : Int) : Ordering :=
  if a < b then Ordering.lt else if b < a then Ordering.gt else Ordering.eq

def natCmp (a b : Nat) : Ordering :=
  if a < b then Ordering.lt else if b < a then Ordering.gt else Ordering.eq

def charCmp (a b : Char) : Ordering :=
  if a.toNat < b.toNat then Ordering.lt
  else if b.toNat < a.toNat then Ordering.gt
  else Ordering.eq

def lexCmp : List Char → List Char → Ordering
  | [], [] => Ordering.eq
  | [], _ :: _ => Ordering.lt
  | _ :: _, [] => Ordering.gt
  | a :: as_, b :: bs =>
    match charCmp a b with
    | Ordering.eq => lexCmp as_ bs
    | o => o

theorem intCmp_swap (a b : Int) : intCmp b a = (intCmp a b).swap := by
  unfold intCmp
  split_ifs <;> simp [Ordering.swap] <;> omega

theorem natCmp_swap (a b : Nat) : natCmp b a = (natCmp a b).swap := by
  unfold natCmp
  split_ifs <;> simp [Ordering.swap] <;> omega

theorem charCmp_swap (a b : Char) : charCmp b a = (charCmp a b).swap := by
  unfold charCmp
  split_ifs <;> simp [Ordering.swap] <;> omega

theorem lexCmp_swap : ∀ (s t : List Char), lexCmp t s = (lexCmp s t).swap
  | [], [] => rfl
  | [], _ :: _ => rfl
  | _ :: _, [] => rfl
  | a :: as_, b :: bs => by
    simp only [lexCmp, charCmp_swap a b]
    cases h : charCmp a b <;> simp [Ordering.swap, lexCmp_swap as_ bs]

theorem Ordering.swap_eq_eq_iff (o : Ordering) : o.swap = Ordering.eq ↔ o = Ordering.eq := by
  cases o <;> simp [Ordering.swap]

instance {ε α : Type} [DecidableEq ε] [DecidableEq α] :
    DecidableEq (Except ε α) := fun a b =>
  match a, b with
  | Except.error e, Except.error f =>
    if h : e = f then Decidable.isTrue (by rw [h])
    else Decidable.isFalse (by simp [h])
  | Except.ok x, Except.ok y =>
    if h : x = y then Decidable.isTrue (by rw [h])
    else Decidable.isFalse (by simp [h])
  | Except.error _, Except.ok _ => Decidable.isFalse (by simp)
  | Except.ok _, Except.error _ => Decidable.isFalse (by simp)

/-! ## The sorting engine (`src/sorting.rs`) -/

/-- `SortOrder` from `src/sorting.rs`: `Ascending`, `Descending`, `None`. -/
inductive SortOrder where
  | ascending
  | descending
  | none
  deriving DecidableEq, Repr

/-- `PositionSort` from `src/sorting.rs`: independent X and Y orders. -/
structure PositionSort where
  xOrder : SortOrder
  yOrder : SortOrder
  deriving DecidableEq, Repr

/-- `adjust_ordering` from `src/sorting.rs`: apply the requested direction. -/
def adjustOrdering (o : Ordering) (so : SortOrder) : Ordering :=
  match so with
  | SortOrder.ascending => o
  | SortOrder.descending => o.swap
  | SortOrder.none => Ordering.eq

/-- `compare_pids` from `src/sorting.rs`. -/
def comparePids (pidA pidB : Nat) (so : SortOrder) : Ordering :=
  match so with
  | SortOrder.ascending => natCmp pidA pidB
  | SortOrder.descending => natCmp pidB pidA
  | SortOrder.none => Ordering.eq

/-- `compare_positions` from `src/sorting.rs`: X first (when requested),
then Y on ties (when requested).  The source's accumulator pattern
(`cmp` stays, is overwritten only while still `Equal`) is exactly
`Ordering.then` chaining. -/
def comparePositions (pa pb : Int × Int) (spos : PositionSort) : Ordering :=
  (if spos.xOrder = SortOrder.none then Ordering.eq
   else adjustOrdering (intCmp pa.1 pb.1) spos.xOrder).then
  (if spos.yOrder = SortOrder.none then Ordering.eq
   else adjustOrdering (intCmp pa.2 pb.2) spos.yOrder)

/-- The `Sortable` trait from `src/sorting.rs`: a pid, a title, and
optional position data. -/
class Sortable (α : Type) where
  getPid : α → Nat
  getPosition : α → Option (Int × Int)
  getTitle : α → List Char

open Sortable in
/-- `compare_items` from `src/sorting.rs`: (1) position comparison when
both items carry position data (early return when it decides); (2) title
comparison whenever the X order is non-`None` (early return when it
decides); (3) pid comparison.  The early returns on non-`Equal` values
are `Ordering.then` chaining. -/
def compareItems {α : Type} [Sortable α] (a b : α) (sortPid : SortOrder)
    (spos : PositionSort) : Ordering :=
  let step23 :=
    if spos.xOrder = SortOrder.none then
      comparePids (getPid a) (getPid b) sortPid
    else
      (adjustOrdering (lexCmp (getTitle a) (getTitle b)) spos.xOrder).then
        (comparePids (getPid a) (getPid b) sortPid)
  match getPosition a, getPosition b with
  | some pa, some pb => (comparePositions pa pb spos).then step23
  | _, _ => step23

/-- `should_skip_sorting` from `src/sorting.rs`. -/
def shouldSkipSorting (sortPid : SortOrder) (spos : PositionSort) : Bool :=
  match sortPid, spos.xOrder, spos.yOrder with
  | SortOrder.none, SortOrder.none, SortOrder.none => true
  | _, _, _ => false

/-- One insertion step of the stable sort modelling `slice::sort_by`:
an element moves past `y` only when it compares strictly greater, so
equal elements keep their original relative order. -/
def insertCmp {α : Type} (cmp : α → α → Ordering) (x : α) : List α → List α
  | [] => [x]
  | y :: ys =>
    if cmp x y = Ordering.gt then y :: insertCmp cmp x ys else x :: y :: ys

/-- Stable insertion sort modelling `slice::sort_by` from the Rust
standard library (a stable comparator-driven sort). -/
def sortBy {α : Type} (cmp : α → α → Ordering) : List α → List α
  | [] => []
  | x :: xs => insertCmp cmp x (sortBy cmp xs)

/-- `apply_optimized_sorting` from `src/sorting.rs`: skip when no order is
requested, otherwise sort with `compare_items`. -/
def applyOptimizedSorting {α : Type} [Sortable α] (sortPid : SortOrder)
    (spos : PositionSort) (items : List α) : List α :=
  if shouldSkipSorting sortPid spos then items
  else sortBy (fun a b => compareItems a b sortPid spos) items

/-- `WindowRect` from `src/types.rs`. -/
structure WindowRect where
  x : Int
  y : Int
  width : Int
  height : Int
  deriving DecidableEq, Repr

/-- `WindowInfo` from `src/types.rs`. -/
structure WindowInfo where
  pid : Nat
  title : List Char
  rect : WindowRect
  deriving DecidableEq, Repr

/-- `impl Sortable for WindowInfo`: position is always present. -/
instance : Sortable WindowInfo where
  getPid w := w.pid
  getPosition w := some (w.rect.x, w.rect.y)
  getTitle w := w.title

/-- A window-like entity with a pid, a title, and optional position data —
the generic `Sortable` item the sorting engine operates on. -/
structure SortItem where
  pid : Nat
  title : List Char
  pos : Option (Int × Int)
  deriving DecidableEq, Repr

instance : Sortable SortItem where
  getPid w := w.pid
  getPosition w := w.pos
  getTitle w := w.title

/-! ## Antisymmetry of the comparator -/

theorem adjustOrdering_swap (o : Ordering) (so : SortOrder) :
    adjustOrdering o.swap so = (adjustOrdering o so).swap := by
  cases so <;> cases o <;> rfl

theorem then_swap (a b : Ordering) : (a.then b).swap = a.swap.then b.swap := by
  cases a <;> cases b <;> rfl

theorem comparePids_swap (a b : Nat) (so : SortOrder) :
    comparePids b a so = (comparePids a b so).swap := by
  cases so
  · exact natCmp_swap a b
  · exact natCmp_swap b a
  · rfl

theorem comparePositions_swap (pa pb : Int × Int) (spos : PositionSort) :
    comparePositions pb pa spos = (comparePositions pa pb spos).swap := by
  unfold comparePositions
  rw [then_swap]
  congr 1
  · split_ifs with h
    · rfl
    · rw [intCmp_swap, adjustOrdering_swap]
  · split_ifs with h
    · rfl
    · rw [intCmp_swap, adjustOrdering_swap]

open Sortable in
theorem compareItems_swap {α : Type} [Sortable α] (a b : α) (sp : SortOrder)
    (spos : PositionSort) :
    compareItems b a sp spos = (compareItems a b sp spos).swap := by
  unfold compareItems
  have hstep : (if spos.xOrder = SortOrder.none then
        comparePids (getPid b) (getPid a) sp
      else
        (adjustOrdering (lexCmp (getTitle b) (getTitle a)) spos.xOrder).then
          (comparePids (getPid b) (getPid a) sp)) =
      (if spos.xOrder = SortOrder.none then
        comparePids (getPid a) (getPid b) sp
      else
        (adjustOrdering (lexCmp (getTitle a) (getTitle b)) spos.xOrder).then
          (comparePids (getPid a) (getPid b) sp)).swap := by
    split_ifs with h
    · exact comparePids_swap _ _ sp
    · rw [then_swap, comparePids_swap, lexCmp_swap, adjustOrdering_swap]
  cases hpa : getPosition a <;> cases hpb : getPosition b <;> dsimp only <;>
    rw [hstep] <;>
    first
      | rfl
      | rw [comparePositions_swap, then_swap]

/-! ## Stable-sort facts: the sorted output is adjacent-sorted, and an
adjacent-sorted list is a fixed point.  Only antisymmetry of the
comparator is needed, so these hold for every `Sortable` item list,
including lists mixing present and absent position data. -/

/-- Adjacent-sortedness: no adjacent pair compares `gt`. -/
def AdjSorted {α : Type} (cmp : α → α → Ordering) : List α → Prop
  | [] => True
  | [_] => True
  | x :: y :: rest => cmp x y ≠ Ordering.gt ∧ AdjSorted cmp (y :: rest)

theorem adjSorted_insertCmp {α : Type} {cmp : α → α → Ordering}
    (hsym : ∀ a b, cmp b a = (cmp a b).swap) (x : α) :
    ∀ l, AdjSorted cmp l → AdjSorted cmp (insertCmp cmp x l)
  | [], _ => by simp [insertCmp, AdjSorted]
  | [y], _ => by
    by_cases h : cmp x y = Ordering.gt
    · have hyx : cmp y x ≠ Ordering.gt := by rw [hsym, h]; decide
      simp only [insertCmp]
      rw [if_pos h]
      exact ⟨hyx, True.intro⟩
    · simp only [insertCmp]
      rw [if_neg h]
      exact ⟨h, True.intro⟩
  | y :: z :: zs, hl => by
    rcases hl with ⟨hyz, htail⟩
    by_cases h : cmp x y = Ordering.gt
    · have hyx : cmp y x ≠ Ordering.gt := by rw [hsym, h]; decide
      have hrec := adjSorted_insertCmp hsym x (z :: zs) htail
      simp only [insertCmp]
      rw [if_pos h]
      by_cases hz : cmp x z = Ordering.gt
      · simp only [insertCmp] at hrec ⊢
        rw [if_pos hz] at hrec ⊢
        exact ⟨hyz, hrec⟩
      · simp only [insertCmp] at hrec ⊢
        rw [if_neg hz] at hrec ⊢
        exact ⟨hyx, hrec⟩
    · simp only [insertCmp]
      rw [if_neg h]
      exact ⟨h, hyz, htail⟩

theorem adjSorted_sortBy {α : Type} {cmp : α → α → Ordering}
    (hsym : ∀ a b, cmp b a = (cmp a b).swap) :
    ∀ l, AdjSorted cmp (sortBy cmp l)
  | [] => trivial
  | x :: xs => adjSorted_insertCmp hsym x _ (adjSorted_sortBy hsym xs)

theorem sortBy_of_adjSorted {α : Type} {cmp : α → α → Ordering} :
    ∀ l, AdjSorted cmp l → sortBy cmp l = l
  | [], _ => rfl
  | [x], _ => rfl
  | x :: y :: ys, hl => by
    rcases hl with ⟨hxy, htail⟩
    have ih := sortBy_of_adjSorted (y :: ys) htail
    calc sortBy cmp (x :: y :: ys) = insertCmp cmp x (sortBy cmp (y :: ys)) := rfl
      _ = insertCmp cmp x (y :: ys) := by rw [ih]
      _ = x :: y :: ys := by simp only [insertCmp]; rw [if_neg hxy]

theorem sortBy_idem {α : Type} {cmp : α → α → Ordering}
    (hsym : ∀ a b, cmp b a = (cmp a b).swap) (l : List α) :
    sortBy cmp (sortBy cmp l) = sortBy cmp l :=
  sortBy_of_adjSorted _ (adjSorted_sortBy hsym l)

theorem applyOptimizedSorting_idem {α : Type} [Sortable α]
    (sp : SortOrder) (spos : PositionSort) (l : List α) :
    applyOptimizedSorting sp spos (applyOptimizedSorting sp spos l) =
      applyOptimizedSorting sp spos l := by
  unfold applyOptimizedSorting
  split_ifs
  · rfl
  · exact sortBy_idem (fun a b => compareItems_swap a b sp spos) l

theorem adjSorted_of_not_gt {α : Type} {cmp : α → α → Ordering}
    (h : ∀ a b, cmp a b ≠ Ordering.gt) : ∀ l, AdjSorted cmp l
  | [] => True.intro
  | [_] => True.intro
  | x :: y :: rest => ⟨h x y, adjSorted_of_not_gt h (y :: rest)⟩

/-! ## The older sorting copy in `src/main.rs` -/

/-- The inline comparator of `apply_window_sorting` in `src/main.rs`
(lines 287-321): position block (X then Y, each only when its order is
non-`None`), then pid on ties. -/
def mainCompareWindows (a b : WindowInfo) (sortPid : SortOrder)
    (spos : PositionSort) : Ordering :=
  (if spos.xOrder ≠ SortOrder.none ∨ spos.yOrder ≠ SortOrder.none then
    (if spos.xOrder = SortOrder.none then Ordering.eq
     else adjustOrdering (intCmp a.rect.x b.rect.x) spos.xOrder).then
    (if spos.yOrder = SortOrder.none then Ordering.eq
     else adjustOrdering (intCmp a.rect.y b.rect.y) spos.yOrder)
  else Ordering.eq).then (comparePids a.pid b.pid sortPid)

/-- `apply_window_sorting` from `src/main.rs`: an unconditional
`sort_by` with the inline comparator (no skip check). -/
def applyWindowSorting (sortPid : SortOrder) (spos : PositionSort)
    (ws : List WindowInfo) : List WindowInfo :=
  sortBy (fun a b => mainCompareWindows a b sortPid spos) ws

/-! ## Claims C1-C3 -/

/-- C1: for every list of window-like entities (pid, title, optional
position data) and every sort key with at least one non-`None` order,
sorting is idempotent: sorting the already-sorted list again with the
same key yields the same element order. -/
theorem sorting_idempotent_c1 (sp : SortOrder) (spos : PositionSort)
    (l : List SortItem)
    (hK : sp ≠ SortOrder.none ∨ spos.xOrder ≠ SortOrder.none ∨
      spos.yOrder ≠ SortOrder.none) :
    applyOptimizedSorting sp spos (applyOptimizedSorting sp spos l) =
      applyOptimizedSorting sp spos l :=
  applyOptimizedSorting_idem sp spos l

/-- Witness for C1 at a concrete key and list. -/
theorem sorting_idempotent_c1_witness :
    applyOptimizedSorting SortOrder.ascending
        ⟨SortOrder.none, SortOrder.none⟩
        (applyOptimizedSorting SortOrder.ascending
          ⟨SortOrder.none, SortOrder.none⟩
          ([⟨2, ['b'], Option.none⟩, ⟨1, ['a'], Option.some (3, 4)⟩] :
            List SortItem)) =
      applyOptimizedSorting SortOrder.ascending
        ⟨SortOrder.none, SortOrder.none⟩
        ([⟨2, ['b'], Option.none⟩, ⟨1, ['a'], Option.some (3, 4)⟩] :
          List SortItem) :=
  sorting_idempotent_c1 SortOrder.ascending ⟨SortOrder.none, SortOrder.none⟩
    ([⟨2, ['b'], Option.none⟩, ⟨1, ['a'], Option.some (3, 4)⟩] : List SortItem)
    (Or.inl (by decide))

/-- C2: when the pid order and both position orders are all `None`,
sorting leaves the element order unchanged — both in the sorting engine
(`should_skip_sorting` skips the sort) and in the older `src/main.rs`
`apply_window_sorting` copy (whose comparator then returns `Equal`
everywhere, so the stable sort moves nothing). -/
theorem sorting_skip_c2 (l : List SortItem) (wl : List WindowInfo) :
    applyOptimizedSorting SortOrder.none ⟨SortOrder.none, SortOrder.none⟩ l = l ∧
    applyWindowSorting SortOrder.none ⟨SortOrder.none, SortOrder.none⟩ wl = wl := by
  constructor
  · simp [applyOptimizedSorting, shouldSkipSorting]
  · refine sortBy_of_adjSorted wl (adjSorted_of_not_gt (fun a b => ?_) wl)
    intro hcontra
    simp [mainCompareWindows, comparePids, Ordering.then] at hcontra

/-- C3 counterexample: two entities that both carry position data and tie
on position (both at `(0,0)`), with X/Y orders ascending and pid order
ascending.  The claim says the comparator proceeds directly to the PID
ordering (`Less`, since 1 < 2); the code instead compares the titles
(`"b"` vs `"a"`) and returns `Greater`. -/
theorem title_fallback_c3_counterexample :
    compareItems (⟨1, ['b'], Option.some (0, 0)⟩ : SortItem)
        ⟨2, ['a'], Option.some (0, 0)⟩ SortOrder.ascending
        ⟨SortOrder.ascending, SortOrder.ascending⟩ = Ordering.gt ∧
    comparePids 1 2 SortOrder.ascending = Ordering.lt := by
  constructor <;> rfl

/-- C3 amended: when both entities carry position data and the position
comparison ties, the comparator does NOT go directly to the PID ordering:
whenever the X order is non-`None` it first compares titles (direction
taken from the X order) and only falls through to the PID ordering when
the titles also tie; the PID ordering is reached directly only when the X
order is `None`. -/
theorem title_fallback_c3_amended {α : Type} [Sortable α] (a b : α)
    (sp : SortOrder) (spos : PositionSort) (pa pb : Int × Int)
    (hpa : Sortable.getPosition a = some pa)
    (hpb : Sortable.getPosition b = some pb)
    (htie : comparePositions pa pb spos = Ordering.eq) :
    (spos.xOrder ≠ SortOrder.none →
      adjustOrdering (lexCmp (Sortable.getTitle a) (Sortable.getTitle b))
          spos.xOrder ≠ Ordering.eq →
      compareItems a b sp spos =
        adjustOrdering (lexCmp (Sortable.getTitle a) (Sortable.getTitle b))
          spos.xOrder) ∧
    (spos.xOrder ≠ SortOrder.none →
      adjustOrdering (lexCmp (Sortable.getTitle a) (Sortable.getTitle b))
          spos.xOrder = Ordering.eq →
      compareItems a b sp spos =
        comparePids (Sortable.getPid a) (Sortable.getPid b) sp) ∧
    (spos.xOrder = SortOrder.none →
      compareItems a b sp spos =
        comparePids (Sortable.getPid a) (Sortable.getPid b) sp) := by
  have hbase : compareItems a b sp spos =
      if spos.xOrder = SortOrder.none then
        comparePids (Sortable.getPid a) (Sortable.getPid b) sp
      else
        (adjustOrdering (lexCmp (Sortable.getTitle a) (Sortable.getTitle b))
            spos.xOrder).then
          (comparePids (Sortable.getPid a) (Sortable.getPid b) sp) := by
    unfold compareItems
    rw [hpa, hpb]
    dsimp only
    rw [htie]
    rfl
  refine ⟨fun hxo ht => ?_, fun hxo ht => ?_, fun hxo => ?_⟩
  · rw [hbase, if_neg hxo]
    cases hcase : adjustOrdering
      (lexCmp (Sortable.getTitle a) (Sortable.getTitle b)) spos.xOrder <;>
      simp_all [Ordering.then]
  · rw [hbase, if_neg hxo, ht]
    rfl
  · rw [hbase, if_pos hxo]

/-- Witness for C3's amended theorem: position tie at `(5,5)`, titles
`"b"` vs `"a"`, X descending — the comparator returns the reversed title
comparison. -/
theorem title_fallback_c3_amended_witness :
    compareItems (⟨7, ['b'], Option.some (5, 5)⟩ : SortItem)
        ⟨9, ['a'], Option.some (5, 5)⟩ SortOrder.ascending
        ⟨SortOrder.descending, SortOrder.ascending⟩ =
      adjustOrdering (lexCmp ['b'] ['a']) SortOrder.descending :=
  (title_fallback_c3_amended (⟨7, ['b'], Option.some (5, 5)⟩ : SortItem)
      ⟨9, ['a'], Option.some (5, 5)⟩ SortOrder.ascending
      ⟨SortOrder.descending, SortOrder.ascending⟩ (5, 5) (5, 5)
      rfl rfl (by decide)).1 (by decide) (by decide)

/-! ## String helpers

Rust strings are modelled as `List Char`.  `str::trim`, `str::split(',')`,
`str::to_lowercase`, `str::contains` and the integer `FromStr` parsers are
embedded directly; `u32`/`i32`/`usize` range checks keep the Rust overflow
failures. -/

def isWsChar (c : Char) : Bool :=
  c == ' ' || c == '\t' || c == '\n' || c == '\r'

/-- `str::trim`. -/
def trimList (s : List Char) : List Char :=
  ((s.dropWhile isWsChar).reverse.dropWhile isWsChar).reverse

def splitCommaAux (cur : List Char) : List Char → List (List Char)
  | [] => [cur.reverse]
  | c :: cs =>
    if c = ',' then cur.reverse :: splitCommaAux [] cs
    else splitCommaAux (c :: cur) cs

/-- `str::split(',')` collected to a list; the empty string yields one
empty piece, as in Rust. -/
def splitComma (s : List Char) : List (List Char) :=
  splitCommaAux [] s

def parseDigitsAux : Nat → List Char → Option Nat
  | acc, [] => some acc
  | acc, c :: cs =>
    if c.isDigit then parseDigitsAux (acc * 10 + (c.toNat - 48)) cs
    else Option.none

/-- A non-empty all-digit string to its value. -/
def parseDigits : List Char → Option Nat
  | [] => Option.none
  | l => parseDigitsAux 0 l

/-- `u32::from_str`: optional `+`, digits, failure past `u32::MAX`. -/
def parseU32 (s : List Char) : Option Nat :=
  let body := match s with
    | '+' :: rest => rest
    | _ => s
  match parseDigits body with
  | some n => if n ≤ 4294967295 then some n else Option.none
  | Option.none => Option.none

/-- `usize::from_str` (64-bit targets): optional `+`, digits, failure past
`usize::MAX`. -/
def parseUsize (s : List Char) : Option Nat :=
  let body := match s with
    | '+' :: rest => rest
    | _ => s
  match parseDigits body with
  | some n => if n ≤ 18446744073709551615 then some n else Option.none
  | Option.none => Option.none

/-- `i32::from_str`: optional sign, digits, failure outside
`i32::MIN ..= i32::MAX`. -/
def parseI32 (s : List Char) : Option Int :=
  match s with
  | '-' :: rest =>
    match parseDigits rest with
    | some n => if n ≤ 2147483648 then some (-(n : Int)) else Option.none
    | Option.none => Option.none
  | '+' :: rest =>
    match parseDigits rest with
    | some n => if n ≤ 2147483647 then some (n : Int) else Option.none
    | Option.none => Option.none
  | _ =>
    match parseDigits s with
    | some n => if n ≤ 2147483647 then some (n : Int) else Option.none
    | Option.none => Option.none

/-- `str::to_lowercase` (per-character, adequate for the claims). -/
def toLowerList (s : List Char) : List Char :=
  s.map Char.toLower

/-- Does `l` start with `p`? -/
def startsWithList : List Char → List Char → Bool
  | [], _ => true
  | _ :: _, [] => false
  | p :: ps, c :: cs => p == c && startsWithList ps cs

/-- `str::contains` (substring test): `containsSub haystack needle`. -/
def containsSub : List Char → List Char → Bool
  | [], needle => needle.isEmpty
  | c :: rest, needle => startsWithList needle (c :: rest) || containsSub rest needle

/-! ## The layout calculator (`src/utils.rs`) -/

/-- `parse_position` from `src/utils.rs`: `"X,Y"` split on the comma,
exactly two parts, each trimmed and parsed as `i32`. -/
def parsePosition (s : List Char) : Except String (Int × Int) :=
  match splitComma s with
  | [a, b] =>
    match parseI32 (trimList a) with
    | Option.none => Except.error "Invalid X coordinate"
    | some x =>
      match parseI32 (trimList b) with
      | Option.none => Except.error "Invalid Y coordinate"
      | some y => Except.ok (x, y)
  | _ => Except.error "Invalid position format"

/-- The `chunks(2)` parsing loop of `parse_layout`: consecutive token
pairs to `(x, y)`.  A trailing singleton chunk is unreachable in
`parse_layout` (guarded by the even-length check). -/
def parsePairs : List (List Char) → Except String (List (Int × Int))
  | [] => Except.ok []
  | x :: y :: rest =>
    match parseI32 (trimList x) with
    | Option.none => Except.error "Invalid X coordinate in layout"
    | some xv =>
      match parseI32 (trimList y) with
      | Option.none => Except.error "Invalid Y coordinate in layout"
      | some yv =>
        match parsePairs rest with
        | Except.error e => Except.error e
        | Except.ok ps => Except.ok ((xv, yv) :: ps)
  | [_] => Except.ok []

/-- `parse_layout` from `src/utils.rs` after the comma split: even count
required, pairs parsed in order, at least `window_count` pairs required,
extra pairs truncated. -/
def parseLayoutCoords (coords : List (List Char)) (windowCount : Nat) :
    Except String (List (Int × Int)) :=
  if coords.length % 2 ≠ 0 then
    Except.error "Layout must have even number of coordinates"
  else
    match parsePairs coords with
    | Except.error e => Except.error e
    | Except.ok positions =>
      if positions.length < windowCount then
        Except.error "Not enough positions in layout"
      else Except.ok (positions.take windowCount)

/-- `parse_layout` from `src/utils.rs`. -/
def parseLayout (layoutStr : List Char) (windowCount : Nat) :
    Except String (List (Int × Int)) :=
  parseLayoutCoords (splitComma layoutStr) windowCount

/-- `parse_indices` from `src/utils.rs`: comma split, blank tokens
skipped, unparseable tokens skipped, then the 1-based range filter. -/
def parseIndices (indexStr : List Char) (maxIndex : Nat) : List Nat :=
  if (trimList indexStr).isEmpty then []
  else
    ((splitComma indexStr).filterMap (fun s =>
        let t := trimList s
        if t.isEmpty then Option.none else parseUsize t)).filter
      (fun idx => decide (1 ≤ idx) && decide (idx ≤ maxIndex))

/-- `has_layout` from `validate_position_parameters`. -/
def hasLayoutB (layout : Option (List Char)) : Bool :=
  match layout with
  | some s => !(trimList s).isEmpty
  | Option.none => false

/-- The `method_count` of `validate_position_parameters`: how many of
single-position / explicit-layout / grid are supplied. -/
def countMethods (position layout xStart yStart xStep yStep :
    Option (List Char)) : Nat :=
  [position.isSome, hasLayoutB layout,
    xStart.isSome || yStart.isSome || xStep.isSome || yStep.isSome].count true

/-- `validate_position_parameters` from `src/utils.rs`. -/
def validatePositionParameters (position layout xStart yStart xStep yStep :
    Option (List Char)) : Except String Unit :=
  let methodCount := countMethods position layout xStart yStart xStep yStep
  if methodCount = 0 then Except.error "No position method specified"
  else if methodCount > 1 then Except.error "Multiple position methods specified"
  else Except.ok ()

/-- The grid loop of `calculate_positions`:
`(x_start + i*x_step, y_start + i*y_step)` for `i in 0..window_count`. -/
def gridPositions (xStartV yStartV xStepV yStepV : Int) (windowCount : Nat) :
    List (Int × Int) :=
  (List.range windowCount).map (fun i =>
    (xStartV + (i : Int) * xStepV, yStartV + (i : Int) * yStepV))

/-- `calculate_positions` from `src/utils.rs`: single position first, then
non-blank layout, then grid (entered only on `x_start`/`y_start`; missing
or unparseable values default to 0 for starts and 100 for steps), else an
error. -/
def calculatePositions (windowCount : Nat) (position : Option (List Char))
    (layout : List Char) (xStart yStart xStep yStep : Option (List Char)) :
    Except String (List (Int × Int)) :=
  match position with
  | some posStr =>
    match parsePosition posStr with
    | Except.error e => Except.error e
    | Except.ok xy => Except.ok (List.replicate windowCount xy)
  | Option.none =>
    if !(trimList layout).isEmpty then parseLayout layout windowCount
    else if xStart.isSome || yStart.isSome then
      Except.ok (gridPositions ((xStart.bind parseI32).getD 0)
        ((yStart.bind parseI32).getD 0) ((xStep.bind parseI32).getD 100)
        ((yStep.bind parseI32).getD 100) windowCount)
    else Except.error "No valid position configuration found"

theorem parsePairs_length : ∀ (coords : List (List Char))
    (ps : List (Int × Int)), parsePairs coords = Except.ok ps →
    ps.length = coords.length / 2
  | [], ps, h => by
    simp only [parsePairs] at h
    cases h
    simp
  | [c], ps, h => by
    simp only [parsePairs] at h
    cases h
    simp
  | x :: y :: rest, ps, h => by
    simp only [parsePairs] at h
    cases hx : parseI32 (trimList x) with
    | none => rw [hx] at h; cases h
    | some xv =>
      rw [hx] at h
      cases hy : parseI32 (trimList y) with
      | none => rw [hy] at h; cases h
      | some yv =>
        rw [hy] at h
        cases hrest : parsePairs rest with
        | error e => rw [hrest] at h; cases h
        | ok ps' =>
          rw [hrest] at h
          cases h
          have ih := parsePairs_length rest ps' hrest
          simp only [List.length_cons, ih]
          omega

/-- C4: layout parsing on a flat coordinate list — an odd token count is a
parse error; with an even count and all tokens parsing, fewer pairs than
the target count is a "not enough positions" error, and otherwise exactly
the first `N` pairs are returned in the input's pairing order; a list of
exactly `2*N` tokens yields exactly its `N` pairs. -/
theorem parse_layout_c4 (coords : List (List Char)) (N : Nat) :
    (coords.length % 2 = 1 →
      parseLayoutCoords coords N =
        Except.error "Layout must have even number of coordinates") ∧
    (∀ ps, coords.length % 2 = 0 → parsePairs coords = Except.ok ps →
      ps.length < N →
      parseLayoutCoords coords N =
        Except.error "Not enough positions in layout") ∧
    (∀ ps, coords.length % 2 = 0 → parsePairs coords = Except.ok ps →
      N ≤ ps.length →
      parseLayoutCoords coords N = Except.ok (ps.take N)) ∧
    (∀ ps, coords.length = 2 * N → parsePairs coords = Except.ok ps →
      parseLayoutCoords coords N = Except.ok ps) := by
  refine ⟨fun hodd => ?_, fun ps heven hps hlt => ?_, fun ps heven hps hge => ?_,
    fun ps hlen hps => ?_⟩
  · unfold parseLayoutCoords
    rw [if_pos (by omega)]
  · unfold parseLayoutCoords
    rw [if_neg (by omega), hps]
    dsimp only
    rw [if_pos hlt]
  · unfold parseLayoutCoords
    rw [if_neg (by omega), hps]
    dsimp only
    rw [if_neg (by omega)]
  · have hl := parsePairs_length coords ps hps
    have hN : ps.length = N := by omega
    unfold parseLayoutCoords
    rw [if_neg (by omega), hps]
    dsimp only
    rw [if_neg (by omega), ← hN, List.take_length]

/-- Witness for C4: tokens `"1","2","3"` (odd) fail; `"1","2","3","4"`
with target 3 lack positions; with target 1 truncate to `[(1,2)]`; with
target 2 round-trip to `[(1,2),(3,4)]`. -/
theorem parse_layout_c4_witness :
    parseLayoutCoords [['1'], ['2'], ['3']] 1 =
      Except.error "Layout must have even number of coordinates" ∧
    parseLayoutCoords [['1'], ['2'], ['3'], ['4']] 3 =
      Except.error "Not enough positions in layout" ∧
    parseLayoutCoords [['1'], ['2'], ['3'], ['4']] 1 = Except.ok [(1, 2)] ∧
    parseLayoutCoords [['1'], ['2'], ['3'], ['4']] 2 =
      Except.ok [(1, 2), (3, 4)] :=
  ⟨(parse_layout_c4 [['1'], ['2'], ['3']] 1).1 (by decide),
    (parse_layout_c4 [['1'], ['2'], ['3'], ['4']] 3).2.1 [(1, 2), (3, 4)]
      (by decide) (by decide) (by decide),
    (parse_layout_c4 [['1'], ['2'], ['3'], ['4']] 1).2.2.1 [(1, 2), (3, 4)]
      (by decide) (by decide) (by decide),
    (parse_layout_c4 [['1'], ['2'], ['3'], ['4']] 2).2.2.2 [(1, 2), (3, 4)]
      (by decide) (by decide)⟩

/-- C5: in grid mode (no single position, blank layout, at least one of
`x_start`/`y_start` supplied) the i-th target gets
`(x_start + i*x_step, y_start + i*y_step)`, with missing start values
defaulting to 0 and missing step values to 100. -/
theorem grid_positions_c5 (N : Nat) (layout : List Char)
    (xStart yStart xStep yStep : Option (List Char))
    (hlayout : (trimList layout).isEmpty = true)
    (hgrid : (xStart.isSome || yStart.isSome) = true) :
    calculatePositions N Option.none layout xStart yStart xStep yStep =
      Except.ok ((List.range N).map (fun i =>
        ((xStart.bind parseI32).getD 0 +
            (i : Int) * ((xStep.bind parseI32).getD 100),
          (yStart.bind parseI32).getD 0 +
            (i : Int) * ((yStep.bind parseI32).getD 100)))) := by
  unfold calculatePositions
  rw [hlayout]
  dsimp only [Bool.not_true]
  rw [if_neg (by simp), if_pos hgrid]
  rfl

/-- Witness for C5: `Grid(x_start=0, y_start=0, x_step=100, y_step=50)`
over `N = 3` yields `[(0,0), (100,50), (200,100)]`. -/
theorem grid_positions_c5_witness :
    calculatePositions 3 Option.none [] (some ['0']) (some ['0'])
        (some ['1', '0', '0']) (some ['5', '0']) =
      Except.ok [(0, 0), (100, 50), (200, 100)] :=
  grid_positions_c5 3 [] (some ['0']) (some ['0'])
    (some ['1', '0', '0']) (some ['5', '0']) (by decide) (by decide)

/-- C6 counterexample: a grid supplied only through `x_step="50"` is
exactly one supplied mode with valid inner data, and passes validation,
but position calculation still fails — the grid branch of
`calculate_positions` is entered only on `x_start`/`y_start`. -/
theorem layout_validation_c6_counterexample :
    validatePositionParameters Option.none Option.none Option.none
        Option.none (some ['5', '0']) Option.none = Except.ok () ∧
    calculatePositions 1 Option.none [] Option.none Option.none
        (some ['5', '0']) Option.none =
      Except.error "No valid position configuration found" :=
  ⟨rfl, rfl⟩

/-- C6 amended: validation fails exactly when the number of supplied
modes is not 1; with exactly one mode supplied and valid inner data,
calculation yields a result for the single-position mode, dispatches to
the layout parser for the explicit mode, and succeeds for a grid that
includes `x_start` or `y_start` — but a grid supplied only through step
parameters passes validation and still fails calculation. -/
theorem layout_validation_c6_amended :
    (∀ position layout xStart yStart xStep yStep,
      (validatePositionParameters position layout xStart yStart xStep yStep =
          Except.ok () ↔
        countMethods position layout xStart yStart xStep yStep = 1)) ∧
    (∀ (N : Nat) posStr xy layout xStart yStart xStep yStep,
      parsePosition posStr = Except.ok xy →
      calculatePositions N (some posStr) layout xStart yStart xStep yStep =
        Except.ok (List.replicate N xy)) ∧
    (∀ (N : Nat) layout xStart yStart xStep yStep,
      (trimList layout).isEmpty = false →
      calculatePositions N Option.none layout xStart yStart xStep yStep =
        parseLayout layout N) ∧
    (∀ (N : Nat) layout xStart yStart xStep yStep,
      (trimList layout).isEmpty = true →
      (xStart.isSome || yStart.isSome) = true →
      ∃ ps, calculatePositions N Option.none layout xStart yStart xStep yStep =
        Except.ok ps) ∧
    (∀ (N : Nat) xStep yStep, (xStep.isSome || yStep.isSome) = true →
      validatePositionParameters Option.none Option.none Option.none
          Option.none xStep yStep = Except.ok () ∧
      calculatePositions N Option.none [] Option.none Option.none xStep yStep =
        Except.error "No valid position configuration found") := by
  refine ⟨fun position layout xStart yStart xStep yStep => ?_,
    fun N posStr xy layout xStart yStart xStep yStep hp => ?_,
    fun N layout xStart yStart xStep yStep hl => ?_,
    fun N layout xStart yStart xStep yStep hl hg => ?_,
    fun N xStep yStep hstep => ?_⟩
  · simp only [validatePositionParameters]
    split_ifs with h1 h2 <;> constructor <;> intro h <;>
      first
        | omega
        | (exact absurd h (by simp))
        | rfl
  · show (match parsePosition posStr with
      | Except.error e => Except.error e
      | Except.ok xy => Except.ok (List.replicate N xy)) =
        Except.ok (List.replicate N xy)
    rw [hp]
  · show (if (!(trimList layout).isEmpty) = true then parseLayout layout N
      else if (xStart.isSome || yStart.isSome) = true then
        Except.ok (gridPositions ((xStart.bind parseI32).getD 0)
          ((yStart.bind parseI32).getD 0) ((xStep.bind parseI32).getD 100)
          ((yStep.bind parseI32).getD 100) N)
      else Except.error "No valid position configuration found") =
        parseLayout layout N
    rw [hl]
    rfl
  · exact ⟨_, grid_positions_c5 N layout xStart yStart xStep yStep hl hg⟩
  · constructor
    · unfold validatePositionParameters countMethods hasLayoutB
      cases xStep <;> cases yStep <;> simp_all
    · unfold calculatePositions
      rw [if_neg (by simp [trimList, isWsChar]), if_neg (by simp)]

/-- Witness for C6's amended theorem at concrete inputs: a lone
`--position "1,2"` validates and replicates, and a steps-only grid
validates yet fails calculation. -/
theorem layout_validation_c6_amended_witness :
    validatePositionParameters (some ['1', ',', '2']) Option.none Option.none
        Option.none Option.none Option.none = Except.ok () ∧
    calculatePositions 2 (some ['1', ',', '2']) [] Option.none Option.none
        Option.none Option.none = Except.ok [(1, 2), (1, 2)] ∧
    validatePositionParameters Option.none Option.none Option.none Option.none
        Option.none (some ['7']) = Except.ok () ∧
    calculatePositions 1 Option.none [] Option.none Option.none Option.none
        (some ['7']) = Except.error "No valid position configuration found" :=
  ⟨(layout_validation_c6_amended.1 (some ['1', ',', '2']) Option.none
      Option.none Option.none Option.none Option.none).mpr (by decide),
    layout_validation_c6_amended.2.1 2 ['1', ',', '2'] (1, 2) [] Option.none
      Option.none Option.none Option.none (by decide),
    (layout_validation_c6_amended.2.2.2.2 1 Option.none (some ['7'])
      (by decide)).1,
    (layout_validation_c6_amended.2.2.2.2 1 Option.none (some ['7'])
      (by decide)).2⟩

/-! ## Error kinds (`src/error.rs`) -/

/-- `AppError` from `src/error.rs` (string payloads for the message-carrying
variants; the `Io` payload is the rendered message). -/
inductive AppError where
  | io : String → AppError
  | parse : String → AppError
  | windowOperation : String → AppError
  | noMatchingWindows : AppError
  | multipleWindows : Nat → AppError
  | invalidParameter : String → AppError
  | featureNotSupported : String → AppError
  | platformError : String → AppError
  | noWindowsModified : AppError
  deriving DecidableEq, Repr

/-! ## Batch operation handlers

A window in a batch is modelled with the outcome of the dispatched native
call (`opOk`) as part of the input: the platform call itself is outside
the embedding, but which windows are attempted and how the results are
aggregated is exactly the handler code. -/

/-- A candidate window of a batch together with the outcome the native
operation would produce on it. -/
structure BatchWindow where
  pid : Nat
  title : List Char
  opOk : Bool
  deriving DecidableEq, Repr

/-- `WindowHandle` carries no geometry, so its `Sortable` impl returns
`None` for the position (`src/sorting.rs`). -/
instance : Sortable BatchWindow where
  getPid w := w.pid
  getPosition _ := Option.none
  getTitle w := w.title

/-- The counting loop of `handle_window_operation`
(`src/features/window_operations.rs` lines 140-168): skip windows outside
the requested indices, stop after the first window when neither `--all`
nor indices were given, otherwise count one per successful operation and
keep going past failures. -/
def batchCount (all : Bool) (indices : List Nat) : Nat → List BatchWindow → Nat
  | _, [] => 0
  | i, w :: rest =>
    if indices ≠ [] ∧ (i + 1) ∉ indices then batchCount all indices (i + 1) rest
    else if all = false ∧ indices = [] ∧ 0 < i then 0
    else (if w.opOk then 1 else 0) + batchCount all indices (i + 1) rest

/-- The windows the loop of `handle_window_operation` actually dispatches
to: the same index/first-only selection, independent of any operation
outcome. -/
def selectedWindows (all : Bool) (indices : List Nat) :
    Nat → List BatchWindow → List BatchWindow
  | _, [] => []
  | i, w :: rest =>
    if indices ≠ [] ∧ (i + 1) ∉ indices then selectedWindows all indices (i + 1) rest
    else if all = false ∧ indices = [] ∧ 0 < i then []
    else w :: selectedWindows all indices (i + 1) rest

/-- `handle_window_operation` from `src/features/window_operations.rs`:
empty discovery fails fast, then sort, parse indices, run the counting
loop, and fail with `NoWindowsModified` exactly when no operation
succeeded (the reported success count is returned on success). -/
def handleWindowOperation (all : Bool) (indexStr : List Char)
    (spos : PositionSort) (windows : List BatchWindow) : Except AppError Nat :=
  if windows.isEmpty then Except.error AppError.noMatchingWindows
  else
    let sorted := applyOptimizedSorting SortOrder.none spos windows
    let indices := parseIndices indexStr windows.length
    let count := batchCount all indices 0 sorted
    if count = 0 then Except.error AppError.noWindowsModified
    else Except.ok count

/-- `handle_always_on_top` from `src/features/always_on_top.rs`: empty
discovery fails fast, a single-target request with several candidates
fails with `MultipleWindows(count)` before any mutation, then every
window is attempted (the per-window set/toggle outcome is `opOk`) and
`NoWindowsModified` is returned exactly when none succeeded. -/
def handleAlwaysOnTop (all : Bool) (windows : List BatchWindow) :
    Except AppError Nat :=
  if windows.isEmpty then Except.error AppError.noMatchingWindows
  else if all = false ∧ windows.length > 1 then
    Except.error (AppError.multipleWindows windows.length)
  else
    let count := windows.countP (fun w => w.opOk)
    if count = 0 then Except.error AppError.noWindowsModified
    else Except.ok count

/-- `execute_window_operation` from `src/main.rs` (lines 152-201): string
errors for empty discovery and for multiple candidates without `--all`
(the source interpolates the count into the message), then every window
is attempted and the success count is returned — `Ok` even when it is
zero. -/
def executeWindowOperation (all : Bool) (windows : List BatchWindow) :
    Except String Nat :=
  if windows.isEmpty then Except.error "No matching windows found"
  else if all = false ∧ windows.length > 1 then
    Except.error "Multiple windows found"
  else Except.ok (windows.countP (fun w => w.opOk))

theorem batchCount_eq_countP (all : Bool) (indices : List Nat) :
    ∀ (i : Nat) (ws : List BatchWindow),
    batchCount all indices i ws =
      (selectedWindows all indices i ws).countP (fun w => w.opOk)
  | _, [] => rfl
  | i, w :: rest => by
    simp only [batchCount, selectedWindows]
    split_ifs with h1 h2 h3
    · exact batchCount_eq_countP all indices (i + 1) rest
    · rfl
    · rw [batchCount_eq_countP all indices (i + 1) rest]
      simp [List.countP_cons, h3, Nat.add_comm]
    · rw [batchCount_eq_countP all indices (i + 1) rest]
      simp [List.countP_cons, h3]

/-- C7 counterexample: one candidate window whose operation fails — zero
successes out of one — yet the `src/main.rs` executor returns `Ok 0`
(its caller then prints a success message and exits 0), not a
`NoWindowsModified` failure. -/
theorem batch_partial_failure_c7_counterexample :
    executeWindowOperation false [⟨1, ['a'], false⟩] = Except.ok 0 ∧
    (executeWindowOperation false [⟨1, ['a'], false⟩]).isOk = true :=
  ⟨rfl, rfl⟩

/-- C7 amended: in the feature handler
(`src/features/window_operations.rs`) a per-window failure does not stop
the remaining selected windows (the count is exactly the number of
successes over the selection, which is chosen independently of any
outcome), and the command fails with `NoWindowsModified` iff the success
count is zero; 2 successes out of 3 yield `Ok 2` and 0 out of 1 yields
`NoWindowsModified`.  The older `src/main.rs` executor instead returns
the count without the zero-success check. -/
theorem batch_partial_failure_c7_amended :
    (∀ (all : Bool) (indices : List Nat) (i : Nat) (ws : List BatchWindow),
      batchCount all indices i ws =
        (selectedWindows all indices i ws).countP (fun w => w.opOk)) ∧
    (∀ (all : Bool) (indexStr : List Char) (spos : PositionSort)
      (windows : List BatchWindow), windows ≠ [] →
      (handleWindowOperation all indexStr spos windows =
          Except.error AppError.noWindowsModified ↔
        batchCount all (parseIndices indexStr windows.length) 0
          (applyOptimizedSorting SortOrder.none spos windows) = 0)) ∧
    handleWindowOperation true [] ⟨SortOrder.none, SortOrder.none⟩
        [⟨1, ['a'], true⟩, ⟨2, ['b'], false⟩, ⟨3, ['c'], true⟩] =
      Except.ok 2 ∧
    handleWindowOperation false [] ⟨SortOrder.none, SortOrder.none⟩
        [⟨1, ['a'], false⟩] = Except.error AppError.noWindowsModified := by
  refine ⟨batchCount_eq_countP, fun all indexStr spos windows hne => ?_, rfl, rfl⟩
  simp only [handleWindowOperation]
  rw [if_neg (by simp [List.isEmpty_iff, hne])]
  split_ifs with hc
  · simp [hc]
  · simp [hc]

/-- Witness for C7's amended theorem: the zero-success singleton batch
fails with `NoWindowsModified`, through the iff. -/
theorem batch_partial_failure_c7_amended_witness :
    handleWindowOperation false ['1'] ⟨SortOrder.none, SortOrder.none⟩
        [⟨1, ['a'], false⟩] = Except.error AppError.noWindowsModified :=
  (batch_partial_failure_c7_amended.2.1 false ['1']
    ⟨SortOrder.none, SortOrder.none⟩ [⟨1, ['a'], false⟩]
    (by decide)).mpr (by decide)

/-- C8 counterexample: two candidate windows, no `--all`, no index — a
single-target minimize/maximize/restore in
`src/features/window_operations.rs` does not fail with
`MultipleWindows(2)`: it silently operates on the first sorted window
only and reports success. -/
theorem multiple_windows_c8_counterexample :
    handleWindowOperation false [] ⟨SortOrder.none, SortOrder.none⟩
        [⟨1, ['a'], true⟩, ⟨2, ['b'], true⟩] = Except.ok 1 := rfl

/-- C8 amended: the always-on-top handler and the older `src/main.rs`
executor do fail, before any mutation, when a single-target operation
finds more than one candidate — with `MultipleWindows(count)` carrying
the candidate count (a formatted message in `src/main.rs`); the
minimize/maximize/restore feature handler instead operates on only the
first sorted window. -/
theorem multiple_windows_c8_amended :
    (∀ (windows : List BatchWindow), windows.length > 1 →
      handleAlwaysOnTop false windows =
        Except.error (AppError.multipleWindows windows.length)) ∧
    (∀ (windows : List BatchWindow), windows.length > 1 →
      executeWindowOperation false windows =
        Except.error "Multiple windows found") := by
  constructor <;> intro windows hlen <;>
    [unfold handleAlwaysOnTop; unfold executeWindowOperation] <;>
    rw [if_neg (by simp [List.isEmpty_iff]; intro h; subst h; simp at hlen),
      if_pos ⟨rfl, hlen⟩]

/-- Witness for C8's amended theorem: two candidates, no `--all`. -/
theorem multiple_windows_c8_amended_witness :
    handleAlwaysOnTop false [⟨1, ['a'], true⟩, ⟨2, ['b'], true⟩] =
      Except.error (AppError.multipleWindows 2) :=
  multiple_windows_c8_amended.1 [⟨1, ['a'], true⟩, ⟨2, ['b'], true⟩]
    (by decide)

/-! ## The Unix backend (`src/platform/unix.rs`) -/

/-- `UnixWindowData` from `src/platform/unix.rs`: no payload. -/
structure UnixWindowData where
  deriving DecidableEq, Repr

def UnixWindowData.minimizeImpl (_ : UnixWindowData) : Except AppError Unit :=
  Except.error (AppError.featureNotSupported "Window operations")

def UnixWindowData.maximizeImpl (_ : UnixWindowData) : Except AppError Unit :=
  Except.error (AppError.featureNotSupported "Window operations")

def UnixWindowData.restoreImpl (_ : UnixWindowData) : Except AppError Unit :=
  Except.error (AppError.featureNotSupported "Window operations")

def UnixWindowData.setPositionImpl (_ : UnixWindowData) (_x _y : Int) :
    Except AppError Unit :=
  Except.error (AppError.featureNotSupported "Window position setting")

def UnixWindowData.setAlwaysOnTopImpl (_ : UnixWindowData) (_onTop : Bool) :
    Except AppError Unit :=
  Except.error (AppError.featureNotSupported "Window always on top operations")

def UnixWindowData.isAlwaysOnTopImpl (_ : UnixWindowData) :
    Except AppError Bool :=
  Except.error (AppError.featureNotSupported "Window always on top detection")

def UnixWindowData.setTransparencyImpl (_ : UnixWindowData) (_opacity : Nat) :
    Except AppError Unit :=
  Except.error (AppError.featureNotSupported "Window transparency operations")

def UnixWindowData.resizeImpl (_ : UnixWindowData) (_width _height : Int)
    (_keepPosition _center : Bool) : Except AppError Unit :=
  Except.error (AppError.featureNotSupported "Window resizing")

/-- The `PlatformWindow` impl for `UnixWindowData` delegates each
operation to the corresponding `*_impl`. -/
def UnixWindowData.minimize (d : UnixWindowData) : Except AppError Unit :=
  d.minimizeImpl

def UnixWindowData.maximize (d : UnixWindowData) : Except AppError Unit :=
  d.maximizeImpl

def UnixWindowData.restore (d : UnixWindowData) : Except AppError Unit :=
  d.restoreImpl

def UnixWindowData.setPosition (d : UnixWindowData) (x y : Int) :
    Except AppError Unit :=
  d.setPositionImpl x y

def UnixWindowData.setAlwaysOnTop (d : UnixWindowData) (onTop : Bool) :
    Except AppError Unit :=
  d.setAlwaysOnTopImpl onTop

def UnixWindowData.isAlwaysOnTop (d : UnixWindowData) : Except AppError Bool :=
  d.isAlwaysOnTopImpl

def UnixWindowData.setTransparency (d : UnixWindowData) (opacity : Nat) :
    Except AppError Unit :=
  d.setTransparencyImpl opacity

def UnixWindowData.resize (d : UnixWindowData) (width height : Int)
    (keepPosition center : Bool) : Except AppError Unit :=
  d.resizeImpl width height keepPosition center

/-- C9: on the Unix backend every window operation deterministically
returns a `FeatureNotSupported` error for every input — none ever
returns an `Ok` no-op. -/
theorem unix_not_supported_c9 (d : UnixWindowData) (x y wd ht : Int)
    (onTop keepPos center : Bool) (opacity : Nat) :
    d.minimize = Except.error (AppError.featureNotSupported "Window operations") ∧
    d.maximize = Except.error (AppError.featureNotSupported "Window operations") ∧
    d.restore = Except.error (AppError.featureNotSupported "Window operations") ∧
    d.setPosition x y =
      Except.error (AppError.featureNotSupported "Window position setting") ∧
    d.setAlwaysOnTop onTop =
      Except.error (AppError.featureNotSupported "Window always on top operations") ∧
    d.isAlwaysOnTop =
      Except.error (AppError.featureNotSupported "Window always on top detection") ∧
    d.setTransparency opacity =
      Except.error (AppError.featureNotSupported "Window transparency operations") ∧
    d.resize wd ht keepPos center =
      Except.error (AppError.featureNotSupported "Window resizing") :=
  ⟨rfl, rfl, rfl, rfl, rfl, rfl, rfl, rfl⟩

/-! ## Window discovery filters (`src/platform/windows.rs`) -/

/-- The filter stage of `find_windows` in `src/platform/windows.rs`
(lines 371-405), applied to the enumerated snapshot: exact pid match when
the pid filter parses as `u32` (an unparseable filter imposes no
condition), case-insensitive substring match of the process name resolved
through the process table, case-insensitive substring match of the title.
The surviving entries become the returned `WindowHandle`s. -/
def findWindows (pidFilter nameFilter titleFilter : Option (List Char))
    (processNames : List (Nat × List Char)) (ws : List WindowInfo) :
    List WindowInfo :=
  ws.filter (fun w =>
    (match pidFilter with
      | some pidStr =>
        match parseU32 pidStr with
        | some filterPid => w.pid == filterPid
        | Option.none => true
      | Option.none => true) &&
    (match nameFilter with
      | some name =>
        containsSub
          (((processNames.find? (fun p => p.1 == w.pid)).map
            (fun p => toLowerList p.2)).getD [])
          (toLowerList name)
      | Option.none => true) &&
    (match titleFilter with
      | some t => containsSub (toLowerList w.title) (toLowerList t)
      | Option.none => true))

/-- C10: a pid filter string that does not parse as `u32` is silently
ignored — the result is identical to supplying no pid filter at all, with
the name and title filters still applied. -/
theorem pid_filter_ignored_c10 (s : List Char)
    (nameFilter titleFilter : Option (List Char))
    (processNames : List (Nat × List Char)) (ws : List WindowInfo)
    (hparse : parseU32 s = Option.none) :
    findWindows (some s) nameFilter titleFilter processNames ws =
      findWindows Option.none nameFilter titleFilter processNames ws := by
  simp only [findWindows, hparse]

/-- Witness for C10: the non-numeric pid filter `"abc"` leaves the result
of a concrete discovery unchanged. -/
theorem pid_filter_ignored_c10_witness :
    findWindows (some ['a', 'b', 'c']) Option.none (some ['w'])
        [(7, ['p'])] [⟨7, ['w', '1'], ⟨0, 0, 10, 10⟩⟩] =
      findWindows Option.none Option.none (some ['w'])
        [(7, ['p'])] [⟨7, ['w', '1'], ⟨0, 0, 10, 10⟩⟩] :=
  pid_filter_ignored_c10 ['a', 'b', 'c'] Option.none (some ['w'])
    [(7, ['p'])] [⟨7, ['w', '1'], ⟨0, 0, 10, 10⟩⟩] (by decide)

end Pscan
